import Mathlib

/-!
Shallow embedding of the `multi-token-vesting` program (Rust, pinocchio-based
Solana program) and verification of its natural-language specification.

Modelling conventions:
* `Pubkey` is modelled as `Nat` (an opaque 32-byte identity; only equality is used).
* `u64` quantities are `Nat`; where the Rust release-mode arithmetic can wrap,
  the operation is taken modulo `2 ^ 64` explicitly (`u64Mul`, `u64Sub`, `u64Add`).
* `i64` quantities are `Int`; Rust `/` and `%` on `i64` truncate toward zero and
  are modelled by `Int.tdiv` / `Int.tmod`.
* Account-guard checks whose internals live in the host runtime or external
  collaborators (signature flags, ATA derivation, owner/length checks of
  token-program accounts, `check_program`, `verify_seeds`) are modelled as
  boolean inputs of the invocation, each failing with the error the source
  returns at that check site.
* A transition is a function `World → … → Except ProgramError World`; the host
  applies a transition atomically, so an `error` result leaves the world
  unchanged (`applyInstruction`).
-/

/-- Program-specific errors, from `src/errors.rs` (`PinocchioError`). -/
inductive PinocchioError
  | InvalidSigner
  | InvalidAddress
  | InvalidSeed
  | StartTimeInvalid
  | DurationInvalid
  | CannotClaimBeforeCliff
  | CannotAddParticipantAfterCliff
  | CannotDoubleClaim
  | ClaimAmountInvalid
  | ClaimAmountOverflow
  deriving DecidableEq, Repr

/-- Runtime-level errors (`pinocchio::program_error::ProgramError`), restricted to
the variants the program actually produces, plus the program's custom errors.
`AccountAlreadyInUse` stands for the system-program failure of `CreateAccount`
on an already-existing account. -/
inductive ProgramError
  | NotEnoughAccountKeys
  | InvalidInstructionData
  | InvalidAccountData
  | InvalidAccountOwner
  | IllegalOwner
  | IncorrectProgramId
  | InsufficientFunds
  | AccountAlreadyInUse
  | Custom (e : PinocchioError)
  deriving DecidableEq, Repr

/-- §7 taxonomy: the *StateError* class (enrollment after cliff, claim before
cliff, already fully claimed, nothing newly vested). -/
def ProgramError.isStateError : ProgramError → Bool
  | .Custom .CannotAddParticipantAfterCliff => true
  | .Custom .CannotClaimBeforeCliff => true
  | .Custom .CannotDoubleClaim => true
  | .Custom .ClaimAmountInvalid => true
  | _ => false

/-- An account identity (32-byte public key), modelled opaquely. -/
abbrev Pubkey := Nat

/-- `2 ^ 64`, the modulus of Rust `u64` arithmetic. -/
def u64Size : Nat := 2 ^ 64

/-- Rust release-mode `u64` multiplication (wraps on overflow). -/
def u64Mul (a b : Nat) : Nat := a * b % u64Size

/-- Rust release-mode `u64` subtraction (wraps below zero); inputs are `u64`
values, i.e. already below `u64Size`. -/
def u64Sub (a b : Nat) : Nat := (a + (u64Size - b % u64Size)) % u64Size

/-- Rust release-mode `u64` addition (wraps on overflow). -/
def u64Add (a b : Nat) : Nat := (a + b) % u64Size

/-- Rust `as u64` cast of an `i64` value (two's-complement reinterpretation). -/
def i64ToU64 (v : Int) : Nat := (v % (2 ^ 64 : Int)).toNat

/-- `i64::MAX`. -/
def i64Max : Int := 2 ^ 63 - 1

/-- `i64::MIN`. -/
def i64Min : Int := -(2 ^ 63)

/-- `x` is representable as an `i64`. -/
def inI64 (x : Int) : Prop := i64Min ≤ x ∧ x ≤ i64Max

instance (x : Int) : Decidable (inI64 x) :=
  inferInstanceAs (Decidable (i64Min ≤ x ∧ x ≤ i64Max))

/-- Reduce an integer to its two's-complement `i64` representative in
`[-2^63, 2^63)`. -/
def wrapI64 (x : Int) : Int := (x + 2 ^ 63) % 2 ^ 64 - 2 ^ 63

/-- Rust release-mode `i64` addition (wraps on overflow). -/
def i64Add (a b : Int) : Int := wrapI64 (a + b)

/-- Rust release-mode `i64` subtraction (wraps on overflow). -/
def i64Sub (a b : Int) : Int := wrapI64 (a - b)

/-- Rust release-mode `i64` multiplication (wraps on overflow). -/
def i64Mul (a b : Int) : Int := wrapI64 (a * b)

/-- Rust `i64` division (truncating). Rust panics on division by zero and on
`i64::MIN / -1`; every use below sits behind checks or hypotheses that keep
the divisor non-zero, and the `i64::MIN / -1` overflow is wrapped. -/
def i64Div (a b : Int) : Int := wrapI64 (a.tdiv b)

/-- Rust `as i64` cast of a `u64` value (two's-complement reinterpretation). -/
def u64AsI64 (n : Nat) : Int := wrapI64 n

/-- Little-endian byte-list to natural number (`u64::from_le_bytes` etc.). -/
def leBytesToNat (bs : List Nat) : Nat := bs.foldr (fun b acc => b + 256 * acc) 0

/-- `u64::from_le_bytes` on an 8-byte slice. -/
def u64FromLeBytes (bs : List Nat) : Nat := leBytesToNat bs

/-- `i64::from_le_bytes` on an 8-byte slice (two's complement). -/
def i64FromLeBytes (bs : List Nat) : Int :=
  let n := leBytesToNat bs
  if n < 2 ^ 63 then (n : Int) else (n : Int) - 2 ^ 64

/-- The `Schedule` record, `src/state/schedule.rs`. -/
structure Schedule where
  discriminator : Nat
  mint : Pubkey
  authority : Pubkey
  seed : Nat
  start : Int
  cliff_duration : Int
  step_duration : Int
  total_duration : Int
  bump : Nat
  deriving DecidableEq, Repr

/-- `Schedule::LEN` from `impl Discriminator for Schedule`:
`2 * size_of::<u8>() + 2 * size_of::<Pubkey>() + 5 * size_of::<i64>()`. -/
def Schedule.LEN : Nat := 2 * 1 + 2 * 32 + 5 * 8

/-- `Schedule::DISCRIMINATOR`. -/
def Schedule.DISCRIMINATOR : Nat := 0

/-- Sum of the declared field widths of the persisted `Schedule` layout
(`#[repr(C, packed)]`): tag, asset_type, authority, seed, start,
cliff_duration, step_duration, total_duration, bump. -/
def scheduleRecordLayoutLen : Nat := 1 + 32 + 32 + 8 + 8 + 8 + 8 + 8 + 1

/-- The length condition of `Schedule::load` / `Schedule::load_mut`
(`account_info.data_len() != Self::LEN` rejects). -/
def scheduleLoadLengthOk (data_len : Nat) : Bool := data_len = Schedule.LEN

/-- `Schedule::is_cliff_completed`:
`Clock::get().unwrap().unix_timestamp > self.cliff_duration + self.start`,
with the clock value passed explicitly as `now`; the `i64` sum
`cliff_duration + start` wraps in release mode. -/
def Schedule.is_cliff_completed (s : Schedule) (now : Int) : Bool :=
  i64Add s.cliff_duration s.start < now

/-- `Schedule::steps_passed_percentage`, `src/state/schedule.rs` lines 98-121.
Integer-only basis-point vesting fraction; every `i64` addition, subtraction,
multiplication and (truncating) division follows release-mode wrap
semantics, and `1.mul(bps_denominator) as i64` is the wrapping `u64` product
reinterpreted as `i64`. -/
def Schedule.steps_passed_percentage (s : Schedule) (now : Int) (bps_denominator : Nat) : Int :=
  if ¬ s.is_cliff_completed now then 0
  else
    let endTime := i64Add s.start s.total_duration
    if now ≥ endTime then u64AsI64 (u64Mul 1 bps_denominator)
    else
      let vesting_duration := i64Sub s.total_duration s.cliff_duration
      let steps_after_cliff := i64Div vesting_duration s.step_duration
      let total_periods := i64Add 1 steps_after_cliff
      let elapsed_after_cliff := i64Sub (i64Sub now s.start) s.cliff_duration
      let periods_after_cliff := i64Div elapsed_after_cliff s.step_duration
      i64Div (i64Mul (i64Add 1 periods_after_cliff) (u64AsI64 bps_denominator)) total_periods

/-- The §4.3 reference definition of `vestedFractionBps`, written from the
spec's words (floor arithmetic throughout, `Int.fdiv`): 0 before the cliff
completes, `bpsDenominator` from the end on, otherwise
`floor((1 + periodsAfterCliff) * bpsDenominator / totalPeriods)`. -/
def vestedFractionBpsSpec (s : Schedule) (now : Int) (bps_denominator : Nat) : Int :=
  if now ≤ s.start + s.cliff_duration then 0
  else if now ≥ s.start + s.total_duration then (bps_denominator : Int)
  else
    let stepsAfterCliff := (s.total_duration - s.cliff_duration).fdiv s.step_duration
    let totalPeriods := 1 + stepsAfterCliff
    let elapsedAfterCliff := now - s.start - s.cliff_duration
    let periodsAfterCliff := elapsedAfterCliff.fdiv s.step_duration
    ((1 + periodsAfterCliff) * (bps_denominator : Int)).fdiv totalPeriods

/-- The §3 duration invariants of a schedule: positive total and step duration,
and the post-cliff span is an exact multiple of the step (Rust `%`). -/
def Schedule.durationInvariants (s : Schedule) : Prop :=
  0 < s.total_duration ∧ 0 < s.step_duration ∧
    (s.total_duration - s.cliff_duration).tmod s.step_duration = 0

instance (s : Schedule) : Decidable s.durationInvariants :=
  inferInstanceAs (Decidable (0 < s.total_duration ∧ 0 < s.step_duration ∧
    (s.total_duration - s.cliff_duration).tmod s.step_duration = 0))

/-- All four timing fields are representable `i64` values (true of every
stored schedule record). -/
def Schedule.i64Fields (s : Schedule) : Prop :=
  inI64 s.start ∧ inI64 s.cliff_duration ∧ inI64 s.step_duration ∧ inI64 s.total_duration

instance (s : Schedule) : Decidable s.i64Fields :=
  inferInstanceAs (Decidable (inI64 s.start ∧ inI64 s.cliff_duration ∧
    inI64 s.step_duration ∧ inI64 s.total_duration))

/-- No intermediate `i64` operation of the vesting-fraction computation
overflows: `cliff + start`, `start + total` and `total − cliff` are
representable, the denominator is a positive `i64` value, and the worst-case
product `totalPeriods * bpsDenominator` fits in an `i64`. The §3 invariants
do not imply this; schedules violating it make the source wrap. -/
def Schedule.vestingNoOverflow (s : Schedule) (bps : Nat) : Prop :=
  inI64 (s.cliff_duration + s.start) ∧
  inI64 (s.start + s.total_duration) ∧
  inI64 (s.total_duration - s.cliff_duration) ∧
  0 < bps ∧ (bps : Int) ≤ i64Max ∧
  (1 + (s.total_duration - s.cliff_duration).tdiv s.step_duration) * (bps : Int) ≤ i64Max

instance (s : Schedule) (bps : Nat) : Decidable (s.vestingNoOverflow bps) :=
  inferInstanceAs (Decidable (inI64 (s.cliff_duration + s.start) ∧
    inI64 (s.start + s.total_duration) ∧
    inI64 (s.total_duration - s.cliff_duration) ∧
    0 < bps ∧ (bps : Int) ≤ i64Max ∧
    (1 + (s.total_duration - s.cliff_duration).tdiv s.step_duration) * (bps : Int) ≤ i64Max))

/-- The `VestedParticipant` record, `src/state/vested_participant.rs`. -/
structure VestedParticipant where
  discriminator : Nat
  schedule : Pubkey
  participant : Pubkey
  allocated_amount : Nat
  claimed_amount : Nat
  deriving DecidableEq, Repr

/-- `VestedParticipant::LEN`:
`size_of::<u8>() + 2 * size_of::<Pubkey>() + 2 * size_of::<u64>()`. -/
def VestedParticipant.LEN : Nat := 1 + 2 * 32 + 2 * 8

/-- `VestedParticipant::DISCRIMINATOR`. -/
def VestedParticipant.DISCRIMINATOR : Nat := 1

/-- `VestedParticipant::is_claim_finalized`. -/
def VestedParticipant.is_claim_finalized (vp : VestedParticipant) : Bool :=
  vp.claimed_amount = vp.allocated_amount

/-- `InitializeInstructionData` (`src/instructions/initialize.rs`):
decoded CreateSchedule payload. -/
structure InitializeInstructionData where
  start_timestamp : Int
  cliff_duration : Int
  step_duration : Int
  total_duration : Int
  seed : Nat
  bump : Nat
  deriving DecidableEq, Repr

/-- `size_of::<InitializeInstructionData>()` for the `#[repr(C, packed)]`
payload: 4 × i64 + u64 + u8. -/
def InitializeInstructionData.LEN : Nat := 4 * 8 + 8 + 1

/-- Raw little-endian field extraction of the CreateSchedule payload
(the slice reads of `InitializeInstructionData::try_from`). -/
def parseInitFields (data : List Nat) : InitializeInstructionData :=
  { start_timestamp := i64FromLeBytes (data.take 8)
    cliff_duration := i64FromLeBytes ((data.drop 8).take 8)
    step_duration := i64FromLeBytes ((data.drop 16).take 8)
    total_duration := i64FromLeBytes ((data.drop 24).take 8)
    seed := u64FromLeBytes ((data.drop 32).take 8)
    bump := leBytesToNat ((data.drop 40).take 1) }

/-- `InitializeInstructionData::try_from`: length check, field extraction,
start-time check against the clock, duration validation. The `i64` difference
`total_duration - cliff_duration` wraps in release mode; the `step == 0`
disjunct short-circuits before `%`, and the remaining `i64::MIN % -1` panic
of Rust `%` is excluded by hypothesis wherever a theorem relies on this
check's outcome. -/
def InitializeInstructionData.try_from (data : List Nat) (now : Int) :
    Except ProgramError InitializeInstructionData :=
  if data.length ≠ InitializeInstructionData.LEN then .error .InvalidInstructionData
  else
    let d := parseInitFields data
    if d.start_timestamp < now then .error (.Custom .StartTimeInvalid)
    else if d.total_duration = 0 ∨ d.step_duration = 0 ∨
        (i64Sub d.total_duration d.cliff_duration).tmod d.step_duration ≠ 0 then
      .error (.Custom .DurationInvalid)
    else .ok d

/-- `AddParticipantInstructionData::try_from`: exact 8-byte payload decoding
to a non-zero `token_allocation_amount`. -/
def AddParticipantInstructionData.try_from (data : List Nat) : Except ProgramError Nat :=
  if data.length ≠ 8 then .error .InvalidInstructionData
  else
    let token_allocation_amount := u64FromLeBytes data
    if token_allocation_amount = 0 then .error .InvalidInstructionData
    else .ok token_allocation_amount

/-- `if !cond { return Err(e) }` / `cond?`-style early return: proceed exactly
when `c` holds, otherwise abort with `e`. -/
def require (c : Prop) [Decidable c] (e : ProgramError) : Except ProgramError Unit :=
  if c then .ok () else .error e

/-- The mutable world a transition touches: the (optional) schedule record, the
(optional) participant record, and the three token balances involved. `none`
models an account that does not yet hold a record of the expected type, so the
owner/length checks of `load` / `ProgramAccount::check` fail on it. -/
structure World where
  schedule : Option Schedule
  vested_participant : Option VestedParticipant
  vault_amount : Nat
  authority_ata_amount : Nat
  participant_ata_amount : Nat
  deriving DecidableEq, Repr

/-- Caller-supplied account handles, reduced to the data the handlers consult:
the keys that are stored or compared, and one boolean per host-side account
guard (signature flag, owner/length of token accounts, program identities,
ATA and PDA derivation checks), each failing with the error of its check site. -/
structure AccountsCtx where
  authority_is_signer : Bool
  participant_wallet_is_signer : Bool
  mint_account_ok : Bool
  system_program_ok : Bool
  token_program_ok : Bool
  vault_init_ok : Bool
  schedule_seeds_ok : Bool
  participant_seeds_ok : Bool
  authority_ata_ok : Bool
  vault_ata_ok : Bool
  participant_ata_init_ok : Bool
  authority_key : Pubkey
  mint_key : Pubkey
  participant_wallet_key : Pubkey
  schedule_key : Pubkey
  deriving DecidableEq, Repr

/-- `Schedule::load` on the world's schedule account: fails (owner/length
check) when no schedule record is stored there. -/
def Schedule.load (w : World) : Except ProgramError Schedule :=
  match w.schedule with
  | none => .error .InvalidAccountOwner
  | some s => .ok s

/-- `VestedParticipant::load` on the world's participant account. -/
def VestedParticipant.load (w : World) : Except ProgramError VestedParticipant :=
  match w.vested_participant with
  | none => .error .InvalidAccountOwner
  | some vp => .ok vp

/-- The CreateSchedule transition (`Initialize::try_from` + `Initialize::process`,
`src/instructions/initialize.rs`), with the clock passed as `now`. Checks run
in source order; `require c e` models the source's `if !c { return Err(e) }`. -/
def initializeRun (w : World) (acc : AccountsCtx) (now : Int) (data : List Nat) :
    Except ProgramError World :=
  (require (acc.authority_is_signer = true) (.Custom .InvalidSigner)).bind fun _ =>
  (require (acc.mint_account_ok = true) .InvalidAccountOwner).bind fun _ =>
  (require (acc.system_program_ok = true) .IncorrectProgramId).bind fun _ =>
  (require (acc.token_program_ok = true) .IncorrectProgramId).bind fun _ =>
  (require (acc.vault_init_ok = true) .InvalidAccountData).bind fun _ =>
  (InitializeInstructionData.try_from data now).bind fun d =>
  (require (acc.schedule_seeds_ok = true) .InvalidAccountData).bind fun _ =>
  (require (w.schedule = none) .AccountAlreadyInUse).bind fun _ =>
  let s : Schedule :=
    { discriminator := Schedule.DISCRIMINATOR
      mint := acc.mint_key
      authority := acc.authority_key
      seed := d.seed
      start := d.start_timestamp
      cliff_duration := d.cliff_duration
      step_duration := d.step_duration
      total_duration := d.total_duration
      bump := d.bump }
  .ok { w with schedule := some s }

/-- The EnrollParticipant transition (`AddParticipant::try_from` +
`AddParticipant::process`, `src/instructions/add_participant.rs`). -/
def addParticipantRun (w : World) (acc : AccountsCtx) (now : Int) (data : List Nat) :
    Except ProgramError World :=
  (require (acc.authority_is_signer = true) (.Custom .InvalidSigner)).bind fun _ =>
  (Schedule.load w).bind fun schedule =>
  (require (acc.mint_account_ok = true) .InvalidAccountOwner).bind fun _ =>
  (AddParticipantInstructionData.try_from data).bind fun token_allocation_amount =>
  (require (¬ schedule.is_cliff_completed now = true)
    (.Custom .CannotAddParticipantAfterCliff)).bind fun _ =>
  (require (schedule.authority = acc.authority_key) .IllegalOwner).bind fun _ =>
  (require (acc.mint_key = schedule.mint) .InvalidAccountData).bind fun _ =>
  (require (acc.participant_seeds_ok = true) .InvalidAccountData).bind fun _ =>
  (require (acc.authority_ata_ok = true) .InvalidAccountOwner).bind fun _ =>
  (require (¬ w.authority_ata_amount < token_allocation_amount) .InsufficientFunds).bind fun _ =>
  (require (acc.vault_ata_ok = true) .InvalidAccountOwner).bind fun _ =>
  (require (w.vested_participant = none) .AccountAlreadyInUse).bind fun _ =>
  .ok { w with
    vested_participant := some
      { discriminator := VestedParticipant.DISCRIMINATOR
        schedule := acc.schedule_key
        participant := acc.participant_wallet_key
        allocated_amount := token_allocation_amount
        claimed_amount := 0 }
    authority_ata_amount := w.authority_ata_amount - token_allocation_amount
    vault_amount := w.vault_amount + token_allocation_amount }

/-- `BPS_DENOMINATOR` from `Claim::process`. -/
def BPS_DENOMINATOR : Nat := 10000

/-- The ClaimVested transition (`Claim::try_from` + `Claim::process`,
`src/instructions/claim.rs`). The `u64` multiplication, subtraction and
addition of the claim-amount computation follow Rust release-mode wrapping. -/
def claimRun (w : World) (acc : AccountsCtx) (now : Int) : Except ProgramError World :=
  (require (acc.participant_wallet_is_signer = true) (.Custom .InvalidSigner)).bind fun _ =>
  (VestedParticipant.load w).bind fun vested_participant =>
  (Schedule.load w).bind fun schedule =>
  (require (acc.mint_account_ok = true) .InvalidAccountOwner).bind fun _ =>
  (require (schedule.is_cliff_completed now = true) (.Custom .CannotClaimBeforeCliff)).bind fun _ =>
  (require (¬ (acc.mint_key ≠ schedule.mint ∨ acc.schedule_key ≠ vested_participant.schedule))
    .InvalidAccountData).bind fun _ =>
  (require (¬ vested_participant.is_claim_finalized = true)
    (.Custom .CannotDoubleClaim)).bind fun _ =>
  (require (vested_participant.participant = acc.participant_wallet_key)
    (.Custom .InvalidSigner)).bind fun _ =>
  (require (vested_participant.schedule = acc.schedule_key) (.Custom .InvalidSigner)).bind fun _ =>
  (require (acc.vault_ata_ok = true) .InvalidAccountOwner).bind fun _ =>
  (require (acc.participant_ata_init_ok = true) .InvalidAccountData).bind fun _ =>
  (require (acc.participant_seeds_ok = true) .InvalidAccountData).bind fun _ =>
  let possible_claim_amount :=
    u64Mul vested_participant.allocated_amount
      (i64ToU64 (schedule.steps_passed_percentage now BPS_DENOMINATOR)) / BPS_DENOMINATOR
  let claim_amount := u64Sub possible_claim_amount vested_participant.claimed_amount
  (require (¬ claim_amount = 0) (.Custom .ClaimAmountInvalid)).bind fun _ =>
  (require (¬ w.vault_amount < claim_amount) .InsufficientFunds).bind fun _ =>
  let total_claimed_amount := u64Add vested_participant.claimed_amount claim_amount
  (require (¬ total_claimed_amount > vested_participant.allocated_amount)
    (.Custom .ClaimAmountOverflow)).bind fun _ =>
  .ok { w with
    vested_participant := some
      { vested_participant with claimed_amount := total_claimed_amount }
    vault_amount := w.vault_amount - claim_amount
    participant_ata_amount := w.participant_ata_amount + claim_amount }

/-- The dispatcher `process_instruction` (`src/lib.rs`): `split_first` on the
instruction buffer, then tag match on 0 / 1 / 2. -/
def process_instruction (w : World) (acc : AccountsCtx) (now : Int)
    (instruction_data : List Nat) : Except ProgramError World :=
  match instruction_data with
  | [] => .error .InvalidInstructionData
  | tag :: data =>
    if tag = 0 then initializeRun w acc now data
    else if tag = 1 then addParticipantRun w acc now data
    else if tag = 2 then claimRun w acc now
    else .error .InvalidInstructionData

/-- Atomic application of one instruction: the host commits the new world on
success and reverts every effect on failure (§5 all-or-nothing). -/
def applyInstruction (w : World) (acc : AccountsCtx) (now : Int)
    (instruction_data : List Nat) : World :=
  match process_instruction w acc now instruction_data with
  | .ok w' => w'
  | .error _ => w

/-- Atomic application of one ClaimVested transition. -/
def applyClaim (w : World) (acc : AccountsCtx) (now : Int) : World :=
  match claimRun w acc now with
  | .ok w' => w'
  | .error _ => w

/-- A sequence of ClaimVested calls, each applied atomically. -/
def claimSeq (w : World) : List (AccountsCtx × Int) → World
  | [] => w
  | (acc, now) :: rest => claimSeq (applyClaim w acc now) rest

/-- The per-participant bookkeeping invariant: whatever participant record is
stored satisfies `claimed_amount ≤ allocated_amount`. -/
def participantInv (w : World) : Prop :=
  ∀ vp, w.vested_participant = some vp → vp.claimed_amount ≤ vp.allocated_amount

instance instDecParticipantInv (w : World) : Decidable (participantInv w) :=
  match hw : w.vested_participant with
  | none => isTrue (fun _ h => absurd (hw ▸ h) (by simp))
  | some vp =>
    if hle : vp.claimed_amount ≤ vp.allocated_amount then
      isTrue (fun vp2 h2 => by
        rw [hw] at h2
        injection h2 with h2
        rw [← h2]
        exact hle)
    else isFalse (fun hinv => hle (hinv vp hw))

/-! ### Concrete fixtures

A schedule with `start = 1000`, `cliff = 100`, `step = 50`, `total = 300`
(the §8 scenario), an accounts context whose guards all pass and whose keys
match the stored record, and worlds at the relevant lifecycle points. -/

/-- The §8 scenario schedule: start 1000, cliff 100, step 50, total 300. -/
def testSchedule : Schedule :=
  { discriminator := 0, mint := 5, authority := 7, seed := 42, start := 1000,
    cliff_duration := 100, step_duration := 50, total_duration := 300, bump := 255 }

/-- An accounts context whose host-side guards all pass and whose keys are
consistent with `testSchedule` and the enrolled participant. -/
def testCtx : AccountsCtx :=
  { authority_is_signer := true, participant_wallet_is_signer := true,
    mint_account_ok := true, system_program_ok := true, token_program_ok := true,
    vault_init_ok := true, schedule_seeds_ok := true, participant_seeds_ok := true,
    authority_ata_ok := true, vault_ata_ok := true, participant_ata_init_ok := true,
    authority_key := 7, mint_key := 5, participant_wallet_key := 9, schedule_key := 11 }

/-- A world before any schedule exists. -/
def emptyWorld : World :=
  { schedule := none, vested_participant := none, vault_amount := 0,
    authority_ata_amount := 0, participant_ata_amount := 0 }

/-- A world holding `testSchedule`, no participant yet, and a funded authority
token account (1 000 000 000, the §8 allocation). -/
def testWorld : World :=
  { schedule := some testSchedule, vested_participant := none, vault_amount := 0,
    authority_ata_amount := 1000000000, participant_ata_amount := 0 }

/-- The EnrollParticipant payload for allocation 1 000 000 000, little-endian. -/
def allocData : List Nat := [0, 202, 154, 59, 0, 0, 0, 0]

/-- `testWorld` after a successful enrollment of participant 9 with
allocation 1 000 000 000. -/
def enrolledWorld : World :=
  { schedule := some testSchedule,
    vested_participant := some
      { discriminator := 1, schedule := 11, participant := 9,
        allocated_amount := 1000000000, claimed_amount := 0 },
    vault_amount := 1000000000, authority_ata_amount := 0, participant_ata_amount := 0 }

/-- A world whose participant record is fully claimed
(`claimed_amount = allocated_amount`). -/
def finalizedWorld : World :=
  { schedule := some testSchedule,
    vested_participant := some
      { discriminator := 1, schedule := 11, participant := 9,
        allocated_amount := 1000000000, claimed_amount := 1000000000 },
    vault_amount := 0, authority_ata_amount := 0, participant_ata_amount := 1000000000 }

/-- CreateSchedule payload: start 2000, cliff 100, step 50, total 300,
`seed = 0`, bump 255 (the input of `test_initialize_seed_zero_fails`). -/
def seedZeroPayload : List Nat :=
  [208, 7, 0, 0, 0, 0, 0, 0] ++ [100, 0, 0, 0, 0, 0, 0, 0] ++ [50, 0, 0, 0, 0, 0, 0, 0] ++
  [44, 1, 0, 0, 0, 0, 0, 0] ++ [0, 0, 0, 0, 0, 0, 0, 0] ++ [255]

/-- CreateSchedule payload: start 2000, cliff 0, step 5, `total = -5`
(little-endian two's complement), seed 1, bump 255. -/
def negTotalPayload : List Nat :=
  [208, 7, 0, 0, 0, 0, 0, 0] ++ [0, 0, 0, 0, 0, 0, 0, 0] ++ [5, 0, 0, 0, 0, 0, 0, 0] ++
  [251, 255, 255, 255, 255, 255, 255, 255] ++ [1, 0, 0, 0, 0, 0, 0, 0] ++ [255]

/-- CreateSchedule payload: start 2000, cliff 0, step 5, `total = 0`, seed 1. -/
def zeroTotalPayload : List Nat :=
  [208, 7, 0, 0, 0, 0, 0, 0] ++ [0, 0, 0, 0, 0, 0, 0, 0] ++ [5, 0, 0, 0, 0, 0, 0, 0] ++
  [0, 0, 0, 0, 0, 0, 0, 0] ++ [1, 0, 0, 0, 0, 0, 0, 0] ++ [255]

/-- `enrolledWorld` after the §8 claim at `now = 1101` (20 % vested,
200 000 000 transferred). -/
def claimedWorld : World :=
  { schedule := some testSchedule,
    vested_participant := some
      { discriminator := 1, schedule := 11, participant := 9,
        allocated_amount := 1000000000, claimed_amount := 200000000 },
    vault_amount := 800000000, authority_ata_amount := 0,
    participant_ata_amount := 200000000 }

/-- The schedule record created by CreateSchedule from `seedZeroPayload`. -/
def seedZeroSchedule : Schedule :=
  { discriminator := 0, mint := 5, authority := 7, seed := 0, start := 2000,
    cliff_duration := 100, step_duration := 50, total_duration := 300, bump := 255 }

/-- `emptyWorld` after CreateSchedule with `seedZeroPayload`. -/
def seedZeroWorld : World := { emptyWorld with schedule := some seedZeroSchedule }

/-- A schedule satisfying the §3 duration invariants whose vesting-fraction
computation overflows `i64` in the source: one second after `start`, the
product `(1 + periods_after_cliff) * 10000 = 10^19 + 20000` exceeds
`i64::MAX` and wraps negative. -/
def overflowSchedule : Schedule :=
  { discriminator := 0, mint := 5, authority := 7, seed := 1, start := 2000000000,
    cliff_duration := -1000000000000000, step_duration := 1,
    total_duration := 1000000000000001, bump := 255 }

/-! ### C7 — ScheduleRecord byte length -/

/-- C7 counterexample: the spec says the ScheduleRecord layout totals 90 bytes,
but `Schedule::LEN` (the length the program stores and accepts when loading a
schedule account) is not 90. -/
theorem C7_schedule_len_ne_90 : Schedule.LEN ≠ 90 := by decide

/-- C7 (amended): the ScheduleRecord fixed-width layout (tag, asset_type,
authority, seed, start, cliff_duration, step_duration, total_duration, bump)
totals 106 bytes; `Schedule::LEN` equals that sum, and the load-time length
check accepts exactly 106 (in particular it rejects 90). -/
theorem C7_schedule_len_106 :
    Schedule.LEN = 106 ∧ scheduleRecordLayoutLen = Schedule.LEN ∧
    scheduleLoadLengthOk 106 = true ∧ scheduleLoadLengthOk 90 = false := by decide

/-! ### C10 — dispatcher rejects empty buffers and unknown tags -/

/-- C10: an empty instruction buffer, or a leading tag byte other than 0, 1, 2,
makes the dispatcher return `InvalidInstructionData`, and the atomically
applied world is unchanged. -/
theorem C10_dispatcher_rejects_unknown_tags (w : World) (acc : AccountsCtx) (now : Int)
    (data : List Nat) (tag : Nat) (h0 : tag ≠ 0) (h1 : tag ≠ 1) (h2 : tag ≠ 2) :
    process_instruction w acc now [] = .error .InvalidInstructionData ∧
    applyInstruction w acc now [] = w ∧
    process_instruction w acc now (tag :: data) = .error .InvalidInstructionData ∧
    applyInstruction w acc now (tag :: data) = w := by
  refine ⟨rfl, rfl, ?_, ?_⟩ <;>
    simp [process_instruction, applyInstruction, h0, h1, h2]

/-- C10 witness: tag 3 on a populated world. -/
theorem C10_dispatcher_rejects_unknown_tags_witness :
    process_instruction testWorld testCtx 1050 [] = .error .InvalidInstructionData ∧
    applyInstruction testWorld testCtx 1050 [] = testWorld ∧
    process_instruction testWorld testCtx 1050 [3, 0] = .error .InvalidInstructionData ∧
    applyInstruction testWorld testCtx 1050 [3, 0] = testWorld :=
  C10_dispatcher_rejects_unknown_tags testWorld testCtx 1050 [0] 3
    (by decide) (by decide) (by decide)

/-! ### C5 — seed = 0 at CreateSchedule -/

/-- C5 (code bug): the payload validation of `InitializeInstructionData::try_from`
accepts `seed = 0` — the decode succeeds with the seed field decoded as 0, and
the full CreateSchedule transition creates a schedule record with seed 0,
contradicting the spec and the repository's own test
`test_initialize_seed_zero_fails`. -/
theorem C5_seed_zero_accepted :
    InitializeInstructionData.try_from seedZeroPayload 1000 =
      .ok { start_timestamp := 2000, cliff_duration := 100, step_duration := 50,
            total_duration := 300, seed := 0, bump := 255 } ∧
    (parseInitFields seedZeroPayload).seed = 0 ∧
    initializeRun emptyWorld testCtx 1000 seedZeroPayload = .ok seedZeroWorld ∧
    seedZeroWorld.schedule =
      some { discriminator := 0, mint := 5, authority := 7, seed := 0, start := 2000,
             cliff_duration := 100, step_duration := 50, total_duration := 300, bump := 255 } :=
  ⟨rfl, rfl, rfl, rfl⟩

/-! ### C6 — duration validation -/

/-- C6 counterexample: a payload with `total_duration = -5 ≤ 0` (cliff 0,
step 5) passes the duration validation — the decode succeeds, so strictly
negative durations are not rejected as the claim states. -/
theorem C6_negative_total_duration_accepted :
    (parseInitFields negTotalPayload).total_duration = -5 ∧
    InitializeInstructionData.try_from negTotalPayload 1000 =
      .ok { start_timestamp := 2000, cliff_duration := 0, step_duration := 5,
            total_duration := -5, seed := 1, bump := 255 } :=
  ⟨rfl, rfl⟩

/-- `wrapI64` is the identity on representable `i64` values. -/
theorem wrapI64_eq_self {x : Int} (h1 : i64Min ≤ x) (h2 : x ≤ i64Max) : wrapI64 x = x := by
  unfold wrapI64
  unfold i64Min at h1
  unfold i64Max at h2
  omega

/-- C6 (amended): for a well-formed payload whose start-time check passes and
which does not hit Rust's `i64::MIN % -1` panic, CreateSchedule payload
validation fails with `DurationInvalid` exactly when `total_duration = 0`, or
`step_duration = 0`, or the *wrapping* `i64` difference
`total_duration − cliff_duration` is not an exact multiple of `step_duration`
under Rust truncated remainder; values that are merely negative are not
rejected. -/
theorem C6_duration_validation_iff (data : List Nat) (now : Int)
    (hlen : data.length = InitializeInstructionData.LEN)
    (hstart : ¬ (parseInitFields data).start_timestamp < now)
    (hpanic : ¬ ((parseInitFields data).step_duration = -1 ∧
      i64Sub (parseInitFields data).total_duration (parseInitFields data).cliff_duration
        = i64Min)) :
    InitializeInstructionData.try_from data now = .error (.Custom .DurationInvalid) ↔
      ((parseInitFields data).total_duration = 0 ∨
       (parseInitFields data).step_duration = 0 ∨
       (i64Sub (parseInitFields data).total_duration
         (parseInitFields data).cliff_duration).tmod
           (parseInitFields data).step_duration ≠ 0) := by
  have hl : ¬ data.length ≠ InitializeInstructionData.LEN := by simp [hlen]
  constructor
  · intro h
    by_contra hc
    simp only [InitializeInstructionData.try_from, if_neg hl, if_neg hstart, if_neg hc] at h
    exact Except.noConfusion h
  · intro h
    simp only [InitializeInstructionData.try_from, if_neg hl, if_neg hstart, if_pos h]

/-- C6 witness: `total_duration = 0` is rejected with `DurationInvalid`. -/
theorem C6_duration_validation_iff_witness :
    InitializeInstructionData.try_from zeroTotalPayload 1000 =
      .error (.Custom .DurationInvalid) :=
  (C6_duration_validation_iff zeroTotalPayload 1000 (by decide) (by decide)
    (by decide)).mpr (by decide)

/-! ### Inversion and forward-evaluation lemmas for the transition pipelines -/

theorem require_bind_ok {β : Type} {c : Prop} [Decidable c] {e : ProgramError}
    (hc : c) (f : Unit → Except ProgramError β) : (require c e).bind f = f () := by
  simp [require, hc, Except.bind]

theorem require_bind_err {β : Type} {c : Prop} [Decidable c] {e : ProgramError}
    (hc : ¬ c) (f : Unit → Except ProgramError β) : (require c e).bind f = .error e := by
  simp [require, hc, Except.bind]

theorem bind_fwd_ok {α β : Type} {x : Except ProgramError α} {a : α}
    (hx : x = .ok a) (f : α → Except ProgramError β) : x.bind f = f a := by
  rw [hx]; rfl

theorem schedule_load_bind {β : Type} {w : World} {s : Schedule}
    (hs : w.schedule = some s) (f : Schedule → Except ProgramError β) :
    (Schedule.load w).bind f = f s := by
  simp [Schedule.load, hs, Except.bind]

theorem vp_load_bind {β : Type} {w : World} {vp : VestedParticipant}
    (hvp : w.vested_participant = some vp) (f : VestedParticipant → Except ProgramError β) :
    (VestedParticipant.load w).bind f = f vp := by
  simp [VestedParticipant.load, hvp, Except.bind]

theorem require_bind_eq_ok {β : Type} {c : Prop} [Decidable c] {e : ProgramError}
    {f : Unit → Except ProgramError β} {b : β} :
    (require c e).bind f = .ok b ↔ c ∧ f () = .ok b := by
  by_cases hc : c <;> simp [require, hc, Except.bind]

theorem bind_eq_ok {α β : Type} {x : Except ProgramError α}
    {f : α → Except ProgramError β} {b : β} :
    x.bind f = .ok b ↔ ∃ a, x = .ok a ∧ f a = .ok b := by
  cases x <;> simp [Except.bind]

theorem schedule_load_bind_eq_ok {β : Type} {w : World}
    {f : Schedule → Except ProgramError β} {b : β} :
    (Schedule.load w).bind f = .ok b ↔ ∃ s, w.schedule = some s ∧ f s = .ok b := by
  cases hw : w.schedule <;> simp [Schedule.load, hw, Except.bind]

theorem vp_load_bind_eq_ok {β : Type} {w : World}
    {f : VestedParticipant → Except ProgramError β} {b : β} :
    (VestedParticipant.load w).bind f = .ok b ↔
      ∃ vp, w.vested_participant = some vp ∧ f vp = .ok b := by
  cases hw : w.vested_participant <;> simp [VestedParticipant.load, hw, Except.bind]

theorem add_data_bind_eq_ok {β : Type} {data : List Nat}
    {f : Nat → Except ProgramError β} {b : β} :
    (AddParticipantInstructionData.try_from data).bind f = .ok b ↔
      ∃ a, AddParticipantInstructionData.try_from data = .ok a ∧ f a = .ok b :=
  bind_eq_ok

theorem init_data_bind_eq_ok {β : Type} {data : List Nat} {now : Int}
    {f : InitializeInstructionData → Except ProgramError β} {b : β} :
    (InitializeInstructionData.try_from data now).bind f = .ok b ↔
      ∃ a, InitializeInstructionData.try_from data now = .ok a ∧ f a = .ok b :=
  bind_eq_ok

/-- A successful EnrollParticipant never writes the schedule record. -/
theorem addParticipantRun_ok_schedule {w : World} {acc : AccountsCtx} {now : Int}
    {data : List Nat} {w' : World} (h : addParticipantRun w acc now data = .ok w') :
    w'.schedule = w.schedule := by
  simp only [addParticipantRun, require_bind_eq_ok, add_data_bind_eq_ok,
    schedule_load_bind_eq_ok, Except.ok.injEq] at h
  obtain ⟨hsig, s, hs, hmint, amt, hamt, _, _, _, _, _, _, _, _, hw⟩ := h
  subst hw
  rfl

/-- A successful ClaimVested never writes the schedule record. -/
theorem claimRun_ok_schedule {w : World} {acc : AccountsCtx} {now : Int} {w' : World}
    (h : claimRun w acc now = .ok w') : w'.schedule = w.schedule := by
  simp only [claimRun, require_bind_eq_ok, vp_load_bind_eq_ok, schedule_load_bind_eq_ok,
    Except.ok.injEq] at h
  obtain ⟨hsig, vp, hvp, s, hs, _, _, _, _, _, _, _, _, _, _, _, _, hw⟩ := h
  subst hw
  rfl

/-- CreateSchedule only succeeds on a world with no schedule record yet. -/
theorem initializeRun_ok_none {w : World} {acc : AccountsCtx} {now : Int}
    {data : List Nat} {w' : World} (h : initializeRun w acc now data = .ok w') :
    w.schedule = none := by
  simp only [initializeRun, require_bind_eq_ok, init_data_bind_eq_ok, Except.ok.injEq] at h
  obtain ⟨_, _, _, _, _, d, hd, _, hnone, _⟩ := h
  exact hnone

/-- A successful ClaimVested leaves a participant record satisfying
`claimed_amount ≤ allocated_amount` (the final overflow guard). -/
theorem claimRun_ok_participant {w : World} {acc : AccountsCtx} {now : Int} {w' : World}
    (h : claimRun w acc now = .ok w') :
    ∃ vp, w'.vested_participant = some vp ∧ vp.claimed_amount ≤ vp.allocated_amount := by
  simp only [claimRun, require_bind_eq_ok, vp_load_bind_eq_ok, schedule_load_bind_eq_ok,
    Except.ok.injEq] at h
  obtain ⟨_, vp, hvp, s, hs, _, _, _, _, _, _, _, _, _, _, _, hov, hw⟩ := h
  subst hw
  exact ⟨_, rfl, Nat.le_of_not_lt hov⟩

/-- The decoded EnrollParticipant allocation is strictly positive. -/
theorem addParticipant_try_from_pos {data : List Nat} {amt : Nat}
    (h : AddParticipantInstructionData.try_from data = .ok amt) : 0 < amt := by
  by_cases hl : data.length = 8
  · by_cases hz : u64FromLeBytes data = 0
    · simp [AddParticipantInstructionData.try_from, hl, hz] at h
    · simp [AddParticipantInstructionData.try_from, hl, hz] at h
      omega
  · simp [AddParticipantInstructionData.try_from, hl] at h

/-- A successful EnrollParticipant creates a record with `claimed_amount = 0`
and a strictly positive allocation. -/
theorem addParticipantRun_ok_participant {w : World} {acc : AccountsCtx} {now : Int}
    {data : List Nat} {w' : World} (h : addParticipantRun w acc now data = .ok w') :
    ∃ vp, w'.vested_participant = some vp ∧ vp.claimed_amount = 0 ∧
      0 < vp.allocated_amount := by
  simp only [addParticipantRun, require_bind_eq_ok, add_data_bind_eq_ok,
    schedule_load_bind_eq_ok, Except.ok.injEq] at h
  obtain ⟨hsig, s, hs, hmint, amt, hamt, _, _, _, _, _, _, _, _, hw⟩ := h
  subst hw
  exact ⟨_, rfl, rfl, addParticipant_try_from_pos hamt⟩

/-! ### Branch evaluations and arithmetic facts for the vesting fraction -/

theorem spp_eq_zero {s : Schedule} {now : Int} (bps : Nat)
    (h1 : ¬ i64Add s.cliff_duration s.start < now) :
    s.steps_passed_percentage now bps = 0 := by
  simp [Schedule.steps_passed_percentage, Schedule.is_cliff_completed, h1]

theorem spp_eq_bps {s : Schedule} {now : Int} (bps : Nat)
    (h1 : i64Add s.cliff_duration s.start < now)
    (h2 : i64Add s.start s.total_duration ≤ now) :
    s.steps_passed_percentage now bps = u64AsI64 (u64Mul 1 bps) := by
  simp [Schedule.steps_passed_percentage, Schedule.is_cliff_completed, h1, h2]

theorem spp_eq_mid {s : Schedule} {now : Int} (bps : Nat)
    (h1 : i64Add s.cliff_duration s.start < now)
    (h2 : ¬ i64Add s.start s.total_duration ≤ now) :
    s.steps_passed_percentage now bps =
      i64Div
        (i64Mul
          (i64Add 1 (i64Div (i64Sub (i64Sub now s.start) s.cliff_duration) s.step_duration))
          (u64AsI64 bps))
        (i64Add 1 (i64Div (i64Sub s.total_duration s.cliff_duration) s.step_duration)) := by
  simp [Schedule.steps_passed_percentage, Schedule.is_cliff_completed, h1, h2]

/-- A truncating division of non-negatives is non-negative and at most the
dividend. -/
theorem tdiv_nonneg_le {a b : Int} (ha : 0 ≤ a) (hb : 0 < b) :
    0 ≤ a.tdiv b ∧ a.tdiv b ≤ a := by
  rw [Int.tdiv_eq_ediv ha (le_of_lt hb)]
  exact ⟨Int.ediv_nonneg ha (le_of_lt hb), Int.ediv_le_self _ ha⟩

/-- Inside the middle branch all dividends and divisors are non-negative, so
the Rust truncating divisions agree with Euclidean division. -/
theorem mid_tdiv_eq_ediv {s : Schedule} {now : Int} (bps : Nat)
    (hstep : 0 < s.step_duration)
    (h1 : s.cliff_duration + s.start < now) (h2 : ¬ s.start + s.total_duration ≤ now) :
    ((1 + (now - s.start - s.cliff_duration).tdiv s.step_duration) * (bps : Int)).tdiv
        (1 + (s.total_duration - s.cliff_duration).tdiv s.step_duration) =
      ((1 + (now - s.start - s.cliff_duration) / s.step_duration) * (bps : Int)) /
        (1 + (s.total_duration - s.cliff_duration) / s.step_duration) := by
  have hel : (0 : Int) ≤ now - s.start - s.cliff_duration := by omega
  have hvd : (0 : Int) ≤ s.total_duration - s.cliff_duration := by omega
  rw [Int.tdiv_eq_ediv hel (by omega), Int.tdiv_eq_ediv hvd (by omega)]
  have hpa : (0 : Int) ≤ (now - s.start - s.cliff_duration) / s.step_duration :=
    Int.ediv_nonneg hel (by omega)
  have hsa : (0 : Int) ≤ (s.total_duration - s.cliff_duration) / s.step_duration :=
    Int.ediv_nonneg hvd (by omega)
  exact Int.tdiv_eq_ediv (by positivity) (by omega)

theorem spec_eq_zero {s : Schedule} {now : Int} (bps : Nat)
    (h1 : now ≤ s.start + s.cliff_duration) :
    vestedFractionBpsSpec s now bps = 0 := by
  simp [vestedFractionBpsSpec, h1]

theorem spec_eq_bps {s : Schedule} {now : Int} (bps : Nat)
    (h1 : ¬ now ≤ s.start + s.cliff_duration) (h2 : s.start + s.total_duration ≤ now) :
    vestedFractionBpsSpec s now bps = (bps : Int) := by
  simp [vestedFractionBpsSpec, h1, h2]

theorem spec_eq_mid {s : Schedule} {now : Int} (bps : Nat)
    (h1 : ¬ now ≤ s.start + s.cliff_duration) (h2 : ¬ s.start + s.total_duration ≤ now) :
    vestedFractionBpsSpec s now bps =
      ((1 + (now - s.start - s.cliff_duration).fdiv s.step_duration) * (bps : Int)).fdiv
        (1 + (s.total_duration - s.cliff_duration).fdiv s.step_duration) := by
  simp [vestedFractionBpsSpec, h1, h2]

/-- Inside the reference's middle branch all divisors are non-negative, so its
floor divisions agree with Euclidean division. -/
theorem spec_mid_fdiv_eq_ediv {s : Schedule} {now : Int} (bps : Nat)
    (hstep : 0 < s.step_duration)
    (h1 : ¬ now ≤ s.start + s.cliff_duration) (h2 : ¬ s.start + s.total_duration ≤ now) :
    ((1 + (now - s.start - s.cliff_duration).fdiv s.step_duration) * (bps : Int)).fdiv
        (1 + (s.total_duration - s.cliff_duration).fdiv s.step_duration) =
      ((1 + (now - s.start - s.cliff_duration) / s.step_duration) * (bps : Int)) /
        (1 + (s.total_duration - s.cliff_duration) / s.step_duration) := by
  have e1 : (now - s.start - s.cliff_duration).fdiv s.step_duration =
      (now - s.start - s.cliff_duration) / s.step_duration :=
    Int.fdiv_eq_ediv _ (by omega)
  have e2 : (s.total_duration - s.cliff_duration).fdiv s.step_duration =
      (s.total_duration - s.cliff_duration) / s.step_duration :=
    Int.fdiv_eq_ediv _ (by omega)
  rw [e1, e2]
  have hsa : (0 : Int) ≤ (s.total_duration - s.cliff_duration) / s.step_duration :=
    Int.ediv_nonneg (by omega) (by omega)
  exact Int.fdiv_eq_ediv _ (by omega)

theorem spec_nonneg {s : Schedule} (hstep : 0 < s.step_duration) (now : Int) (bps : Nat) :
    0 ≤ vestedFractionBpsSpec s now bps := by
  by_cases h1 : now ≤ s.start + s.cliff_duration
  · rw [spec_eq_zero bps h1]
  · by_cases h2 : s.start + s.total_duration ≤ now
    · rw [spec_eq_bps bps h1 h2]; positivity
    · rw [spec_eq_mid bps h1 h2, spec_mid_fdiv_eq_ediv bps hstep h1 h2]
      have hel : (0 : Int) ≤ now - s.start - s.cliff_duration := by omega
      have hpa : (0 : Int) ≤ (now - s.start - s.cliff_duration) / s.step_duration :=
        Int.ediv_nonneg hel (by omega)
      have hsa : (0 : Int) ≤ (s.total_duration - s.cliff_duration) / s.step_duration :=
        Int.ediv_nonneg (by omega) (by omega)
      exact Int.ediv_nonneg (by positivity) (by omega)

theorem spec_le_bps {s : Schedule} (hstep : 0 < s.step_duration) (now : Int) (bps : Nat) :
    vestedFractionBpsSpec s now bps ≤ (bps : Int) := by
  by_cases h1 : now ≤ s.start + s.cliff_duration
  · rw [spec_eq_zero bps h1]; positivity
  · by_cases h2 : s.start + s.total_duration ≤ now
    · rw [spec_eq_bps bps h1 h2]
    · rw [spec_eq_mid bps h1 h2, spec_mid_fdiv_eq_ediv bps hstep h1 h2]
      have hel : now - s.start - s.cliff_duration ≤ s.total_duration - s.cliff_duration := by
        omega
      have hpa : (now - s.start - s.cliff_duration) / s.step_duration ≤
          (s.total_duration - s.cliff_duration) / s.step_duration :=
        Int.ediv_le_ediv hstep hel
      have hsa : (0 : Int) ≤ (s.total_duration - s.cliff_duration) / s.step_duration :=
        Int.ediv_nonneg (by omega) (by omega)
      have hP : (0 : Int) < 1 + (s.total_duration - s.cliff_duration) / s.step_duration := by
        omega
      calc ((1 + (now - s.start - s.cliff_duration) / s.step_duration) * (bps : Int)) /
            (1 + (s.total_duration - s.cliff_duration) / s.step_duration)
          ≤ ((1 + (s.total_duration - s.cliff_duration) / s.step_duration) * (bps : Int)) /
            (1 + (s.total_duration - s.cliff_duration) / s.step_duration) := by
            apply Int.ediv_le_ediv hP
            have hb : (0 : Int) ≤ (bps : Int) := by positivity
            nlinarith
        _ = (bps : Int) := Int.mul_ediv_cancel_left _ (by omega)

theorem spec_mono {s : Schedule} (hstep : 0 < s.step_duration) {t1 t2 : Int}
    (h12 : t1 ≤ t2) (bps : Nat) :
    vestedFractionBpsSpec s t1 bps ≤ vestedFractionBpsSpec s t2 bps := by
  by_cases h1a : t1 ≤ s.start + s.cliff_duration
  · rw [spec_eq_zero bps h1a]
    exact spec_nonneg hstep t2 bps
  · have h2a : ¬ t2 ≤ s.start + s.cliff_duration := by omega
    by_cases h1b : s.start + s.total_duration ≤ t1
    · have h2b : s.start + s.total_duration ≤ t2 := by omega
      rw [spec_eq_bps bps h1a h1b, spec_eq_bps bps h2a h2b]
    · by_cases h2b : s.start + s.total_duration ≤ t2
      · rw [spec_eq_bps bps h2a h2b]
        exact spec_le_bps hstep t1 bps
      · rw [spec_eq_mid bps h1a h1b, spec_mid_fdiv_eq_ediv bps hstep h1a h1b,
          spec_eq_mid bps h2a h2b, spec_mid_fdiv_eq_ediv bps hstep h2a h2b]
        have hsa : (0 : Int) ≤ (s.total_duration - s.cliff_duration) / s.step_duration :=
          Int.ediv_nonneg (by omega) (by omega)
        apply Int.ediv_le_ediv (by omega)
        have hpa : (t1 - s.start - s.cliff_duration) / s.step_duration ≤
            (t2 - s.start - s.cliff_duration) / s.step_duration :=
          Int.ediv_le_ediv hstep (by omega)
        have hb : (0 : Int) ≤ (bps : Int) := by positivity
        exact mul_le_mul_of_nonneg_right (by omega) hb

/-- Under the §3 invariants, `i64`-representable fields and clock, and the
no-overflow side conditions, every wrapped `i64` operation of
`steps_passed_percentage` coincides with exact arithmetic, and the function
equals the §4.3 reference definition. -/
theorem sppW_eq_spec (s : Schedule) (bps : Nat) (hinv : s.durationInvariants)
    (hfld : s.i64Fields) (hno : s.vestingNoOverflow bps)
    (now : Int) (hnow : inI64 now) :
    s.steps_passed_percentage now bps = vestedFractionBpsSpec s now bps := by
  obtain ⟨htot, hstep, hmod⟩ := hinv
  obtain ⟨⟨hsl, hsu⟩, ⟨hcl, hcu⟩, ⟨hpl, hpu⟩, ⟨htl, htu⟩⟩ := hfld
  obtain ⟨⟨hcs1, hcs2⟩, ⟨hst1, hst2⟩, ⟨hvd1, hvd2⟩, hbpos, hble, hprod⟩ := hno
  obtain ⟨hnl, hnu⟩ := hnow
  have hmin0 : i64Min ≤ 0 := by unfold i64Min; omega
  have hmax0 : (0 : Int) ≤ i64Max := by unfold i64Max; omega
  have ecs : i64Add s.cliff_duration s.start = s.cliff_duration + s.start :=
    wrapI64_eq_self hcs1 hcs2
  have est : i64Add s.start s.total_duration = s.start + s.total_duration :=
    wrapI64_eq_self hst1 hst2
  have hb0 : (0 : Int) ≤ (bps : Int) := by positivity
  by_cases h1 : s.cliff_duration + s.start < now
  · by_cases h2 : s.start + s.total_duration ≤ now
    · rw [spp_eq_bps bps (by rw [ecs]; exact h1) (by rw [est]; exact h2),
        spec_eq_bps bps (by omega) h2]
      have hblt : bps < 2 ^ 64 := by
        have : (bps : Int) < 2 ^ 64 := by unfold i64Max at hble; omega
        exact_mod_cast this
      have hmul : u64Mul 1 bps = bps := by
        unfold u64Mul u64Size
        rw [one_mul, Nat.mod_eq_of_lt hblt]
      rw [hmul]
      exact wrapI64_eq_self (by omega) hble
    · -- middle branch: strip every wrap
      rw [spp_eq_mid bps (by rw [ecs]; exact h1) (by rw [est]; exact h2)]
      have evd : i64Sub s.total_duration s.cliff_duration =
          s.total_duration - s.cliff_duration := wrapI64_eq_self hvd1 hvd2
      have hvd0 : 0 < s.total_duration - s.cliff_duration := by omega
      have hsa := tdiv_nonneg_le (le_of_lt hvd0) hstep
      have esa : i64Div (s.total_duration - s.cliff_duration) s.step_duration =
          (s.total_duration - s.cliff_duration).tdiv s.step_duration :=
        wrapI64_eq_self (by omega) (by omega)
      have hb1 : (1 : Int) ≤ (bps : Int) := by exact_mod_cast hbpos
      have hsb : 1 + (s.total_duration - s.cliff_duration).tdiv s.step_duration ≤ i64Max := by
        nlinarith [hprod, hsa.1]
      have etp : i64Add 1 ((s.total_duration - s.cliff_duration).tdiv s.step_duration) =
          1 + (s.total_duration - s.cliff_duration).tdiv s.step_duration :=
        wrapI64_eq_self (by omega) (by omega)
      have ee1 : i64Sub now s.start = now - s.start :=
        wrapI64_eq_self (by omega) (by omega)
      have ee2 : i64Sub (now - s.start) s.cliff_duration =
          now - s.start - s.cliff_duration := wrapI64_eq_self (by omega) (by omega)
      have hel0 : 0 < now - s.start - s.cliff_duration := by omega
      have hpa := tdiv_nonneg_le (le_of_lt hel0) hstep
      have epa : i64Div (now - s.start - s.cliff_duration) s.step_duration =
          (now - s.start - s.cliff_duration).tdiv s.step_duration :=
        wrapI64_eq_self (by omega) (by omega)
      have hpasa : (now - s.start - s.cliff_duration).tdiv s.step_duration ≤
          (s.total_duration - s.cliff_duration).tdiv s.step_duration := by
        rw [Int.tdiv_eq_ediv (by omega) (by omega), Int.tdiv_eq_ediv (by omega) (by omega)]
        exact Int.ediv_le_ediv hstep (by omega)
      have e1pa : i64Add 1 ((now - s.start - s.cliff_duration).tdiv s.step_duration) =
          1 + (now - s.start - s.cliff_duration).tdiv s.step_duration :=
        wrapI64_eq_self (by omega) (by omega)
      have ebps : u64AsI64 bps = (bps : Int) := wrapI64_eq_self (by omega) hble
      have hnum0 : (0 : Int) ≤
          (1 + (now - s.start - s.cliff_duration).tdiv s.step_duration) * (bps : Int) :=
        mul_nonneg (by omega) hb0
      have hnumle :
          (1 + (now - s.start - s.cliff_duration).tdiv s.step_duration) * (bps : Int) ≤
          (1 + (s.total_duration - s.cliff_duration).tdiv s.step_duration) * (bps : Int) :=
        mul_le_mul_of_nonneg_right (by omega) hb0
      have enum : i64Mul
          (1 + (now - s.start - s.cliff_duration).tdiv s.step_duration) (bps : Int) =
          (1 + (now - s.start - s.cliff_duration).tdiv s.step_duration) * (bps : Int) :=
        wrapI64_eq_self (by omega) (by omega)
      have hres := tdiv_nonneg_le hnum0
        (show (0 : Int) < 1 + (s.total_duration - s.cliff_duration).tdiv s.step_duration by
          omega)
      have eres : i64Div
          ((1 + (now - s.start - s.cliff_duration).tdiv s.step_duration) * (bps : Int))
          (1 + (s.total_duration - s.cliff_duration).tdiv s.step_duration) =
          ((1 + (now - s.start - s.cliff_duration).tdiv s.step_duration) * (bps : Int)).tdiv
            (1 + (s.total_duration - s.cliff_duration).tdiv s.step_duration) :=
        wrapI64_eq_self (by omega) (by omega)
      rw [ee1, ee2, epa, e1pa, ebps, evd, esa, etp, enum, eres]
      rw [mid_tdiv_eq_ediv bps hstep h1 h2, spec_eq_mid bps (by omega) h2,
        spec_mid_fdiv_eq_ediv bps hstep (by omega) h2]
  · rw [spp_eq_zero bps (by rw [ecs]; exact h1), spec_eq_zero bps (by omega)]

/-! ### C1 — claimed_amount ≤ allocated_amount invariant -/

/-- C1: EnrollParticipant establishes the bookkeeping invariant
(`claimed_amount = 0` with `allocated_amount > 0`), every successful
ClaimVested leaves `claimed_amount ≤ allocated_amount` (re-checked by the
overflow guard before committing), and every sequence of atomically applied
ClaimVested calls preserves the invariant. -/
theorem C1_claimed_le_allocated :
    (∀ w acc now data w', addParticipantRun w acc now data = .ok w' →
      ∃ vp, w'.vested_participant = some vp ∧ vp.claimed_amount = 0 ∧
        0 < vp.allocated_amount) ∧
    (∀ w acc now w', claimRun w acc now = .ok w' →
      ∃ vp, w'.vested_participant = some vp ∧ vp.claimed_amount ≤ vp.allocated_amount) ∧
    (∀ w calls, participantInv w → participantInv (claimSeq w calls)) := by
  refine ⟨fun w acc now data w' h => addParticipantRun_ok_participant h,
    fun w acc now w' h => claimRun_ok_participant h, ?_⟩
  intro w calls
  induction calls generalizing w with
  | nil => exact id
  | cons c rest ih =>
    intro hw
    obtain ⟨acc, now⟩ := c
    show participantInv (claimSeq (applyClaim w acc now) rest)
    apply ih
    unfold applyClaim
    cases h : claimRun w acc now with
    | error e => exact hw
    | ok w' =>
      obtain ⟨vp, hvp, hle⟩ := claimRun_ok_participant h
      intro vp2 hvp2
      rw [hvp] at hvp2
      injection hvp2 with hvp2
      subst hvp2
      exact hle

/-- C1 witness: the §8 enrollment and the 20 % claim at `now = 1101`. -/
theorem C1_claimed_le_allocated_witness :
    (∃ vp, enrolledWorld.vested_participant = some vp ∧ vp.claimed_amount = 0 ∧
      0 < vp.allocated_amount) ∧
    (∃ vp, claimedWorld.vested_participant = some vp ∧
      vp.claimed_amount ≤ vp.allocated_amount) ∧
    participantInv (claimSeq enrolledWorld [(testCtx, 1101)]) :=
  ⟨C1_claimed_le_allocated.1 testWorld testCtx 1050 allocData enrolledWorld rfl,
   C1_claimed_le_allocated.2.1 enrolledWorld testCtx 1101 claimedWorld rfl,
   C1_claimed_le_allocated.2.2 enrolledWorld [(testCtx, 1101)] (by decide)⟩

/-! ### C2 — the vesting fraction vs. the §4.3 reference definition -/

/-- C2 counterexample: a schedule satisfying the §3 duration invariants
(start 2·10⁹, cliff −10¹⁵, step 1, total 10¹⁵+1) on which, one second after
start, the source's `i64` product `(1 + periods_after_cliff) * 10000 =
10¹⁹ + 20000` wraps negative: the program computes −4223 where the §4.3
reference gives 5000, so the claimed equality fails. -/
theorem C2_overflow_counterexample :
    overflowSchedule.durationInvariants ∧
    overflowSchedule.steps_passed_percentage 2000000001 10000 = -4223 ∧
    vestedFractionBpsSpec overflowSchedule 2000000001 10000 = 5000 :=
  ⟨by decide, by rfl, by rfl⟩

/-- C2 (amended): the vesting fraction equals the §4.3 reference definition
provided additionally that no intermediate `i64` operation overflows — the
fields, the clock, `cliff + start`, `start + total` and `total − cliff` are
representable and `totalPeriods * bpsDenominator ≤ i64::MAX` with a positive
denominator. -/
theorem C2_vested_fraction_matches_reference (s : Schedule) (bps : Nat)
    (hinv : s.durationInvariants) (hfld : s.i64Fields) (hno : s.vestingNoOverflow bps) :
    ∀ now, inI64 now →
      s.steps_passed_percentage now bps = vestedFractionBpsSpec s now bps :=
  fun now hnow => sppW_eq_spec s bps hinv hfld hno now hnow

/-- C2 witness: the §8 schedule meets every side condition, and code and
reference agree at `now = 1101`. -/
theorem C2_vested_fraction_matches_reference_witness :
    testSchedule.durationInvariants ∧ testSchedule.i64Fields ∧
    testSchedule.vestingNoOverflow 10000 ∧ inI64 1101 ∧
    testSchedule.steps_passed_percentage 1101 10000 =
      vestedFractionBpsSpec testSchedule 1101 10000 :=
  ⟨by decide, by decide, by decide, by decide,
   C2_vested_fraction_matches_reference testSchedule 10000 (by decide) (by decide)
     (by decide) 1101 (by decide)⟩

/-! ### C3 — monotonicity and bounds of the vesting fraction -/

/-- C3 counterexample: on the same §3-valid overflowing schedule the program's
vesting fraction is 0 at the cliff instant but −4223 at the later time
2000000001, violating both monotonicity and the lower bound 0. -/
theorem C3_overflow_counterexample :
    overflowSchedule.durationInvariants ∧
    (-999999998000000000 : Int) ≤ 2000000001 ∧
    overflowSchedule.steps_passed_percentage (-999999998000000000) 10000 = 0 ∧
    overflowSchedule.steps_passed_percentage 2000000001 10000 = -4223 :=
  ⟨by decide, by decide, by rfl, by rfl⟩

/-- C3 (amended): under the §3 invariants and the same no-overflow side
conditions as C2, the vesting fraction is monotone non-decreasing over
`i64`-representable times and always lies in `[0, bpsDenominator]`. -/
theorem C3_vested_fraction_monotone_bounded (s : Schedule) (bps : Nat)
    (hinv : s.durationInvariants) (hfld : s.i64Fields) (hno : s.vestingNoOverflow bps) :
    (∀ t1 t2, inI64 t1 → inI64 t2 → t1 ≤ t2 →
      s.steps_passed_percentage t1 bps ≤ s.steps_passed_percentage t2 bps) ∧
    (∀ now, inI64 now → 0 ≤ s.steps_passed_percentage now bps ∧
      s.steps_passed_percentage now bps ≤ (bps : Int)) := by
  constructor
  · intro t1 t2 ht1 ht2 h12
    rw [sppW_eq_spec s bps hinv hfld hno t1 ht1, sppW_eq_spec s bps hinv hfld hno t2 ht2]
    exact spec_mono hinv.2.1 h12 bps
  · intro now hnow
    rw [sppW_eq_spec s bps hinv hfld hno now hnow]
    exact ⟨spec_nonneg hinv.2.1 now bps, spec_le_bps hinv.2.1 now bps⟩

/-- C3 witness: monotone between 1101 and 1200 and bounded at 1101 for the
§8 schedule. -/
theorem C3_vested_fraction_monotone_bounded_witness :
    testSchedule.durationInvariants ∧ testSchedule.i64Fields ∧
    testSchedule.vestingNoOverflow 10000 ∧
    testSchedule.steps_passed_percentage 1101 10000 ≤
      testSchedule.steps_passed_percentage 1200 10000 ∧
    (0 ≤ testSchedule.steps_passed_percentage 1101 10000 ∧
      testSchedule.steps_passed_percentage 1101 10000 ≤ (10000 : Int)) :=
  ⟨by decide, by decide, by decide,
   (C3_vested_fraction_monotone_bounded testSchedule 10000 (by decide) (by decide)
     (by decide)).1 1101 1200 (by decide) (by decide) (by decide),
   (C3_vested_fraction_monotone_bounded testSchedule 10000 (by decide) (by decide)
     (by decide)).2 1101 (by decide)⟩

/-! ### C4 — the enrollment window boundary -/

/-- C4 counterexample: at `now = start + cliff_duration` (= 1100 for the §8
schedule) enrollment still *succeeds*, because `is_cliff_completed` uses a
strict comparison — contradicting the claim that enrollment fails whenever
the current time equals or exceeds `start + cliff_duration`. -/
theorem C4_enrollment_succeeds_at_cliff_boundary :
    testSchedule.start + testSchedule.cliff_duration = (1100 : Int) ∧
    (addParticipantRun testWorld testCtx 1100 allocData).isOk = true :=
  ⟨rfl, rfl⟩

/-- C4 (amended): with every other precondition satisfied, EnrollParticipant
succeeds iff the current time is *at most* the wrapping `i64` sum
`cliff_duration + start` that the source's gate computes (the window closes
only strictly after that instant), it fails with
`CannotAddParticipantAfterCliff` whenever `now` exceeds that sum, and
whenever `start + cliff_duration` is `i64`-representable the gate reads
`now ≤ start + cliff_duration`. -/
theorem C4_enrollment_gate_iff_le_cliff (w : World) (acc : AccountsCtx) (now : Int)
    (data : List Nat) (s : Schedule) (amt : Nat)
    (hsig : acc.authority_is_signer = true)
    (hsch : w.schedule = some s)
    (hmintacc : acc.mint_account_ok = true)
    (hdata : AddParticipantInstructionData.try_from data = .ok amt)
    (hauth : s.authority = acc.authority_key)
    (hmint : acc.mint_key = s.mint)
    (hseeds : acc.participant_seeds_ok = true)
    (hata : acc.authority_ata_ok = true)
    (hbal : ¬ w.authority_ata_amount < amt)
    (hvault : acc.vault_ata_ok = true)
    (hfresh : w.vested_participant = none) :
    ((addParticipantRun w acc now data).isOk = true ↔
      now ≤ i64Add s.cliff_duration s.start) ∧
    (i64Add s.cliff_duration s.start < now →
      addParticipantRun w acc now data =
        .error (.Custom .CannotAddParticipantAfterCliff)) ∧
    (inI64 (s.cliff_duration + s.start) →
      ((addParticipantRun w acc now data).isOk = true ↔
        now ≤ s.start + s.cliff_duration)) := by
  by_cases hc : i64Add s.cliff_duration s.start < now
  · have hcliff : ¬ (¬ s.is_cliff_completed now = true) := by
      simp [Schedule.is_cliff_completed, hc]
    have h : addParticipantRun w acc now data =
        .error (.Custom .CannotAddParticipantAfterCliff) := by
      simp only [addParticipantRun, require_bind_ok hsig, schedule_load_bind hsch,
        require_bind_ok hmintacc, bind_fwd_ok hdata, require_bind_err hcliff]
    refine ⟨?_, fun _ => h, ?_⟩
    · rw [h]
      simp only [Except.isOk, Except.toBool]
      constructor
      · intro hfalse; exact absurd hfalse (by simp)
      · intro hle; exfalso; omega
    · intro hrange
      obtain ⟨hr1, hr2⟩ := hrange
      have hce : i64Add s.cliff_duration s.start = s.cliff_duration + s.start :=
        wrapI64_eq_self hr1 hr2
      rw [h]
      simp only [Except.isOk, Except.toBool]
      constructor
      · intro hfalse; exact absurd hfalse (by simp)
      · intro hle; exfalso; rw [hce] at hc; omega
  · have hcliff : ¬ s.is_cliff_completed now = true := by
      simp [Schedule.is_cliff_completed, hc]
    have h : (addParticipantRun w acc now data).isOk = true := by
      simp only [addParticipantRun, require_bind_ok hsig, schedule_load_bind hsch,
        require_bind_ok hmintacc, bind_fwd_ok hdata, require_bind_ok hcliff,
        require_bind_ok hauth, require_bind_ok hmint, require_bind_ok hseeds,
        require_bind_ok hata, require_bind_ok hbal, require_bind_ok hvault,
        require_bind_ok hfresh]
      rfl
    refine ⟨?_, fun hlt => absurd hlt (by omega), ?_⟩
    · rw [h]
      constructor
      · intro _; omega
      · intro _; rfl
    · intro hrange
      obtain ⟨hr1, hr2⟩ := hrange
      have hce : i64Add s.cliff_duration s.start = s.cliff_duration + s.start :=
        wrapI64_eq_self hr1 hr2
      rw [h]
      constructor
      · intro _; rw [hce] at hc; omega
      · intro _; rfl

/-- C4 witness: the §8 world at `now = 1050`, all other preconditions
discharged concretely. -/
theorem C4_enrollment_gate_iff_le_cliff_witness :
    ((addParticipantRun testWorld testCtx 1050 allocData).isOk = true ↔
      (1050 : Int) ≤ i64Add testSchedule.cliff_duration testSchedule.start) ∧
    (i64Add testSchedule.cliff_duration testSchedule.start < 1050 →
      addParticipantRun testWorld testCtx 1050 allocData =
        .error (.Custom .CannotAddParticipantAfterCliff)) ∧
    (inI64 (testSchedule.cliff_duration + testSchedule.start) →
      ((addParticipantRun testWorld testCtx 1050 allocData).isOk = true ↔
        (1050 : Int) ≤ testSchedule.start + testSchedule.cliff_duration)) :=
  C4_enrollment_gate_iff_le_cliff testWorld testCtx 1050 allocData testSchedule
    1000000000 rfl rfl rfl rfl rfl rfl rfl rfl (by decide) rfl rfl

/-! ### C8 — fully claimed records always re-fail with a StateError -/

/-- C8: once `claimed_amount = allocated_amount`, every further ClaimVested
invocation (with its account checks passing) fails with a §7 StateError —
`CannotDoubleClaim` after the cliff, `CannotClaimBeforeCliff` degenerately
before it — and the atomically applied world is unchanged: no transfer, no
state mutation. -/
theorem C8_fully_claimed_always_state_error (w : World) (acc : AccountsCtx) (now : Int)
    (s : Schedule) (vp : VestedParticipant)
    (hsig : acc.participant_wallet_is_signer = true)
    (hvp : w.vested_participant = some vp)
    (hsch : w.schedule = some s)
    (hmintacc : acc.mint_account_ok = true)
    (hmint : acc.mint_key = s.mint)
    (hkey : acc.schedule_key = vp.schedule)
    (hfull : vp.claimed_amount = vp.allocated_amount) :
    ∃ e, claimRun w acc now = .error e ∧ e.isStateError = true ∧
      applyClaim w acc now = w := by
  have hmatch : ¬ (acc.mint_key ≠ s.mint ∨ acc.schedule_key ≠ vp.schedule) := by
    simp [hmint, hkey]
  have hfin : ¬ (¬ vp.is_claim_finalized = true) := by
    simp [VestedParticipant.is_claim_finalized, hfull]
  by_cases hcliff : s.is_cliff_completed now = true
  · have h : claimRun w acc now = .error (.Custom .CannotDoubleClaim) := by
      simp only [claimRun, require_bind_ok hsig, vp_load_bind hvp, schedule_load_bind hsch,
        require_bind_ok hmintacc, require_bind_ok hcliff, require_bind_ok hmatch,
        require_bind_err hfin]
    exact ⟨_, h, rfl, by simp [applyClaim, h]⟩
  · have h : claimRun w acc now = .error (.Custom .CannotClaimBeforeCliff) := by
      simp only [claimRun, require_bind_ok hsig, vp_load_bind hvp, schedule_load_bind hsch,
        require_bind_ok hmintacc, require_bind_err hcliff]
    exact ⟨_, h, rfl, by simp [applyClaim, h]⟩

/-- C8 witness: the fully claimed §8 world at `now = 1400`. -/
theorem C8_fully_claimed_always_state_error_witness :
    ∃ e, claimRun finalizedWorld testCtx 1400 = .error e ∧ e.isStateError = true ∧
      applyClaim finalizedWorld testCtx 1400 = finalizedWorld :=
  C8_fully_claimed_always_state_error finalizedWorld testCtx 1400 testSchedule
    { discriminator := 1, schedule := 11, participant := 9,
      allocated_amount := 1000000000, claimed_amount := 1000000000 }
    rfl rfl rfl rfl rfl rfl rfl

/-! ### C9 — the schedule record is immutable after creation -/

/-- C9: once a schedule record exists, every EnrollParticipant (tag 1) and
ClaimVested (tag 2) transition — successful or failing, atomically applied —
leaves the schedule record (all fields) unchanged, and in fact every
dispatched instruction does, since CreateSchedule fails on an existing
record and unknown tags are rejected. -/
theorem C9_schedule_immutable (w : World) (acc : AccountsCtx) (now : Int)
    (data : List Nat) (tag : Nat) (s : Schedule) (hs : w.schedule = some s) :
    (applyInstruction w acc now (1 :: data)).schedule = w.schedule ∧
    (applyInstruction w acc now (2 :: data)).schedule = w.schedule ∧
    (applyInstruction w acc now (tag :: data)).schedule = w.schedule := by
  have h1 : (applyInstruction w acc now (1 :: data)).schedule = w.schedule := by
    unfold applyInstruction
    have hp : process_instruction w acc now (1 :: data) = addParticipantRun w acc now data := by
      simp [process_instruction]
    rw [hp]
    cases h : addParticipantRun w acc now data with
    | ok w' => exact addParticipantRun_ok_schedule h
    | error e => rfl
  have h2 : (applyInstruction w acc now (2 :: data)).schedule = w.schedule := by
    unfold applyInstruction
    have hp : process_instruction w acc now (2 :: data) = claimRun w acc now := by
      simp [process_instruction]
    rw [hp]
    cases h : claimRun w acc now with
    | ok w' => exact claimRun_ok_schedule h
    | error e => rfl
  refine ⟨h1, h2, ?_⟩
  by_cases t0 : tag = 0
  · subst t0
    unfold applyInstruction
    have hp : process_instruction w acc now (0 :: data) = initializeRun w acc now data := by
      simp [process_instruction]
    rw [hp]
    cases h : initializeRun w acc now data with
    | ok w' =>
      have hnone := initializeRun_ok_none h
      rw [hs] at hnone
      exact Option.noConfusion hnone
    | error e => rfl
  · by_cases t1 : tag = 1
    · subst t1; exact h1
    · by_cases t2 : tag = 2
      · subst t2; exact h2
      · unfold applyInstruction
        have hp : process_instruction w acc now (tag :: data) =
            .error .InvalidInstructionData := by
          simp [process_instruction, t0, t1, t2]
        rw [hp]

/-- C9 witness: the §8 world, checking tags 1, 2 and 0. -/
theorem C9_schedule_immutable_witness :
    (applyInstruction testWorld testCtx 1101 (1 :: allocData)).schedule =
      testWorld.schedule ∧
    (applyInstruction testWorld testCtx 1101 (2 :: allocData)).schedule =
      testWorld.schedule ∧
    (applyInstruction testWorld testCtx 1101 (0 :: allocData)).schedule =
      testWorld.schedule :=
  C9_schedule_immutable testWorld testCtx 1101 allocData 0 testSchedule rfl
